import Mathlib

/-!
# Node model of the drone-exec pipeline parser (`parser/node.go`)

A shallow embedding of the parse-tree node model: the `NodeType` bit flags, the
`Node` interface with its implementations `ListNode`, `DockerNode` and
`FilterNode`, and the constructor functions.

Conventions of the embedding.
* `NodeType` (Go `uint`) is a natural number; the nine constants are `1 << iota`
  for `iota = 0..8`, far below any machine word bound, and no arithmetic is done
  on tags besides the bitwise tests of a consumer.
* A Go slice is the list of its elements (a nil slice and an empty slice both
  have length 0 and are the empty list), except the shell commands of a build:
  `Commands` is the one slice that a constructor stores as the caller gave it
  while another constructor leaves it at its zero value, so there the nil slice
  is told apart from an allocated slice without elements (`StringSlice`).
* A Go map is the list of its key/value bindings (a nil map and an empty map
  both have length 0 and are the empty list).
* `ListNode.append` mutates its receiver; it is embedded as a function from the
  state of the receiver before the call to its state after the call.
-/

namespace DroneExec

/-! ## Configuration descriptors (package `yaml`) -/

/-- Modelled from the spec: a flexible scalar-or-list configuration field of the
`yaml` package (absent from src/): "a configuration field that may be authored
as either a single value or a list, normalized to a canonical ordered sequence
before use". -/
inductive Flexible where
  | scalar (v : String)
  | list (vs : List String)
  deriving DecidableEq, Repr

/-- Modelled from the spec: the normalization `Slice()` of a flexible field
(absent from src/): a single scalar value and a one-element list containing that
value produce identical normalized sequences; a list keeps its order. -/
def Flexible.Slice : Flexible → List String
  | .scalar v => [v]
  | .list vs => vs

/-- A Go `[]string` value with its nil-ness: the nil slice (the zero value), or
an allocated slice holding the given elements, possibly none. -/
inductive StringSlice where
  | nil
  | ofList (xs : List String)
  deriving DecidableEq, Repr

/-- The elements of a slice, in order; the nil slice has none. -/
def StringSlice.elems : StringSlice → List String
  | .nil => []
  | .ofList xs => xs

/-- Go `len(s)`. -/
def StringSlice.len (s : StringSlice) : Nat := s.elems.length

/-- Modelled from the spec: the registry auth configuration `yaml.AuthConfig`
(its declaration is absent from src/). The node constructors copy it as a
whole and never look inside. -/
structure AuthConfig where
  Username : String
  Password : String
  Email : String
  deriving DecidableEq, Repr

/-- Modelled from the spec: an "arbitrary value" of the open-ended plugin
argument mapping (Go `interface{}` holding a decoded configuration value). The
node constructors copy these values and never look inside. -/
inductive Value where
  | null
  | bool (b : Bool)
  | int (i : Int)
  | str (s : String)
  | seq (xs : List Value)
  deriving Repr

/-- Modelled from the spec: the generic container descriptor `yaml.Container`
(its declaration is absent from src/); the fields are those read by
`newDockerNode`. `Memory` is an `int64`, which is only copied. -/
structure Container where
  Image : String
  Pull : Bool
  Privileged : Bool
  Environment : Flexible
  Entrypoint : Flexible
  Command : Flexible
  Volumes : List String
  Devices : List String
  ExtraHosts : List String
  Net : String
  Pid : String
  DNS : Flexible
  AuthConfig : AuthConfig
  Memory : Int
  CPUSetCPUs : String
  OomKillDisable : Bool
  deriving DecidableEq, Repr

/-- Modelled from the spec: the plugin descriptor `yaml.Plugin` (its declaration
is absent from src/): a container descriptor plus an arbitrary string-keyed
argument mapping. -/
structure Plugin where
  Container : Container
  Vargs : List (String × Value)

/-- Modelled from the spec: the build descriptor `yaml.Build` (its declaration is
absent from src/): a container descriptor plus an ordered list of shell
commands. -/
structure Build where
  Container : Container
  Commands : StringSlice
  deriving DecidableEq, Repr

/-- Modelled from the spec: the filter descriptor `yaml.Filter` (its declaration
is absent from src/); the fields are those read by `newFilterNode`. -/
structure Filter where
  Repo : String
  Branch : Flexible
  Event : Flexible
  Success : String
  Failure : String
  Change : String
  Matrix : List (String × String)
  Environment : Flexible
  deriving DecidableEq, Repr

/-! ## Node types -/

/-- Go `type NodeType uint`: identifies the type of a parse tree node. -/
abbrev NodeType : Type := Nat

/-- Go `func (t NodeType) Type() NodeType`: returns itself. -/
def NodeType.type (t : NodeType) : NodeType := t

/-- Go `NodeList NodeType = 1 << iota`, with `iota = 0`. -/
def NodeList : NodeType := 1 <<< 0
/-- Go `NodeFilter`, `1 << iota` with `iota = 1`. -/
def NodeFilter : NodeType := 1 <<< 1
/-- Go `NodeBuild`, `1 << iota` with `iota = 2`. -/
def NodeBuild : NodeType := 1 <<< 2
/-- Go `NodeCache`, `1 << iota` with `iota = 3`. -/
def NodeCache : NodeType := 1 <<< 3
/-- Go `NodeClone`, `1 << iota` with `iota = 4`. -/
def NodeClone : NodeType := 1 <<< 4
/-- Go `NodeDeploy`, `1 << iota` with `iota = 5`. -/
def NodeDeploy : NodeType := 1 <<< 5
/-- Go `NodeCompose`, `1 << iota` with `iota = 6`. -/
def NodeCompose : NodeType := 1 <<< 6
/-- Go `NodeNotify`, `1 << iota` with `iota = 7`. -/
def NodeNotify : NodeType := 1 <<< 7
/-- Go `NodePublish`, `1 << iota` with `iota = 8`. -/
def NodePublish : NodeType := 1 <<< 8

/-- The nine `NodeType` constants of the `const` block, in declaration order. -/
def nodeTypes : List NodeType :=
  [NodeList, NodeFilter, NodeBuild, NodeCache, NodeClone, NodeDeploy, NodeCompose,
    NodeNotify, NodePublish]

/-! ## Nodes -/

/-- Go `type DockerNode struct`: a Docker container that should be launched as
part of the build process. -/
structure DockerNode where
  NodeType : NodeType
  Image : String
  Pull : Bool
  Privileged : Bool
  Environment : List String
  Entrypoint : List String
  Command : List String
  Commands : StringSlice
  Volumes : List String
  Devices : List String
  ExtraHosts : List String
  Net : String
  Pid : String
  DNS : List String
  AuthConfig : AuthConfig
  Memory : Int
  CPUSetCPUs : String
  OomKillDisable : Bool
  Vargs : List (String × Value)

/-- The method `Type()` promoted from the embedded `NodeType` field. -/
def DockerNode.type (d : DockerNode) : DroneExec.NodeType := d.NodeType.type

mutual
/-- Go `type Node interface { Type() NodeType }`: a value of the interface is nil
or one of the types of the package having the method `Type()`: a bare
`NodeType`, a `*ListNode`, a `*DockerNode` or a `*FilterNode`. -/
inductive Node where
  | nil
  | ofType (t : NodeType)
  | ofList (l : ListNode)
  | ofDocker (d : DockerNode)
  | ofFilter (f : FilterNode)
/-- Go `type ListNode struct { NodeType; Nodes []Node }`: holds a sequence of
nodes, executed in lexical order. -/
inductive ListNode where
  | mk (NodeType : NodeType) (Nodes : List Node)
/-- Go `type FilterNode struct`: a conditional step used to filter nodes; the child
`Node` is the node to execute if the conditions are met. -/
inductive FilterNode where
  | mk (NodeType : NodeType) (Repo : String) (Branch : List String) (Event : List String)
      (Success : String) (Failure : String) (Change : String)
      (Matrix : List (String × String)) (Environment : List String) (Node : Node)
end

/-- Field `NodeType` of a `ListNode`. -/
def ListNode.NodeType : ListNode → NodeType
  | .mk t _ => t

/-- Field `Nodes` of a `ListNode`. -/
def ListNode.Nodes : ListNode → List Node
  | .mk _ ns => ns

/-- The method `Type()` promoted from the embedded `NodeType` field. -/
def ListNode.type (l : ListNode) : DroneExec.NodeType := l.NodeType.type

/-- Go `func (l *ListNode) append(n ...Node)`: `l.Nodes = append(l.Nodes, n...)`;
the result is the receiver after the call. -/
def ListNode.append (l : ListNode) (n : List Node) : ListNode :=
  .mk l.NodeType (l.Nodes ++ n)

/-- Go `func newListNode() *ListNode`: `&ListNode{NodeType: NodeList}`; the field
`Nodes` has its zero value. -/
def newListNode : ListNode := .mk NodeList []

/-- Go `func newDockerNode(typ NodeType, c yaml.Container) *DockerNode`; the
fields `Commands` and `Vargs`, absent from the literal, have their zero value:
the nil slice and the nil map. -/
def newDockerNode (typ : NodeType) (c : Container) : DockerNode :=
  { NodeType := typ
    Image := c.Image
    Pull := c.Pull
    Privileged := c.Privileged
    Environment := c.Environment.Slice
    Entrypoint := c.Entrypoint.Slice
    Command := c.Command.Slice
    Commands := .nil
    Volumes := c.Volumes
    Devices := c.Devices
    ExtraHosts := c.ExtraHosts
    Net := c.Net
    Pid := c.Pid
    DNS := c.DNS.Slice
    AuthConfig := c.AuthConfig
    Memory := c.Memory
    CPUSetCPUs := c.CPUSetCPUs
    OomKillDisable := c.OomKillDisable
    Vargs := [] }

/-- Go `func newPluginNode(typ NodeType, p yaml.Plugin) *DockerNode`. -/
def newPluginNode (typ : NodeType) (p : Plugin) : DockerNode :=
  let node := newDockerNode typ p.Container
  { node with Vargs := p.Vargs }

/-- Go `func newBuildNode(typ NodeType, b yaml.Build) *DockerNode`. -/
def newBuildNode (typ : NodeType) (b : Build) : DockerNode :=
  let node := newDockerNode typ b.Container
  { node with Commands := b.Commands }

/-- Field `NodeType` of a `FilterNode`. -/
def FilterNode.NodeType : FilterNode → NodeType
  | .mk t _ _ _ _ _ _ _ _ _ => t
/-- Field `Repo` of a `FilterNode`. -/
def FilterNode.Repo : FilterNode → String
  | .mk _ r _ _ _ _ _ _ _ _ => r
/-- Field `Branch` of a `FilterNode`. -/
def FilterNode.Branch : FilterNode → List String
  | .mk _ _ b _ _ _ _ _ _ _ => b
/-- Field `Event` of a `FilterNode`. -/
def FilterNode.Event : FilterNode → List String
  | .mk _ _ _ e _ _ _ _ _ _ => e
/-- Field `Success` of a `FilterNode`. -/
def FilterNode.Success : FilterNode → String
  | .mk _ _ _ _ s _ _ _ _ _ => s
/-- Field `Failure` of a `FilterNode`. -/
def FilterNode.Failure : FilterNode → String
  | .mk _ _ _ _ _ f _ _ _ _ => f
/-- Field `Change` of a `FilterNode`. -/
def FilterNode.Change : FilterNode → String
  | .mk _ _ _ _ _ _ c _ _ _ => c
/-- Field `Matrix` of a `FilterNode`. -/
def FilterNode.Matrix : FilterNode → List (String × String)
  | .mk _ _ _ _ _ _ _ m _ _ => m
/-- Field `Environment` of a `FilterNode`. -/
def FilterNode.Environment : FilterNode → List String
  | .mk _ _ _ _ _ _ _ _ e _ => e
/-- Field `Node` of a `FilterNode`: the guarded child. -/
def FilterNode.Node : FilterNode → Node
  | .mk _ _ _ _ _ _ _ _ _ n => n

/-- The method `Type()` promoted from the embedded `NodeType` field. -/
def FilterNode.type (f : FilterNode) : DroneExec.NodeType := f.NodeType.type

/-- Go `func newFilterNode(filter yaml.Filter) *FilterNode`; the field `Node`,
absent from the literal, has its zero value, the nil interface. -/
def newFilterNode (filter : Filter) : FilterNode :=
  .mk NodeFilter filter.Repo filter.Branch.Slice filter.Event.Slice filter.Success
    filter.Failure filter.Change filter.Matrix filter.Environment.Slice Node.nil

/-- The method `Type()` called through the interface `Node`: dispatch on the
dynamic type; there is no result on the nil interface. -/
def Node.type : Node → Option NodeType
  | .nil => none
  | .ofType t => some t.type
  | .ofList l => some l.type
  | .ofDocker d => some d.type
  | .ofFilter f => some f.type

/-! ## Notions used by the statements -/

/-- A tag has exactly one flag bit set when it is `1` shifted left by some
number of positions. -/
def OneFlag (t : NodeType) : Prop := ∃ k : Nat, t = 1 <<< k

/-- The mask of a set of node kinds, given as the list of its members: the
bitwise OR of the members. -/
def mask (S : List NodeType) : NodeType := S.foldr (fun s m => s ||| m) 0

/-- A `DockerNode` produced by one of the three `DockerNode` constructors. -/
inductive Constructed : DockerNode → Prop where
  | docker (typ : NodeType) (c : Container) : Constructed (newDockerNode typ c)
  | plugin (typ : NodeType) (p : Plugin) : Constructed (newPluginNode typ p)
  | build (typ : NodeType) (b : Build) : Constructed (newBuildNode typ b)

/-- A call of one of the three `DockerNode` constructors, with its arguments. -/
inductive Call where
  | docker (typ : NodeType) (c : Container)
  | plugin (typ : NodeType) (p : Plugin)
  | build (typ : NodeType) (b : Build)

/-- The node that a constructor call returns. -/
def Call.node : Call → DockerNode
  | .docker typ c => newDockerNode typ c
  | .plugin typ p => newPluginNode typ p
  | .build typ b => newBuildNode typ b

/-! ## Sample descriptors -/

/-- A container descriptor of a Go build step. -/
def golangContainer : Container :=
  { Image := "golang:1.9"
    Pull := true
    Privileged := false
    Environment := .list ["GOPATH=/go", "CGO_ENABLED=0"]
    Entrypoint := .scalar "/bin/sh"
    Command := .list ["-c", "make"]
    Volumes := ["/var/cache:/cache"]
    Devices := ["/dev/fuse"]
    ExtraHosts := ["registry:10.0.0.2"]
    Net := "bridge"
    Pid := "host"
    DNS := .scalar "8.8.8.8"
    AuthConfig := { Username := "octocat", Password := "secret", Email := "octocat@example.com" }
    Memory := 536870912
    CPUSetCPUs := "0,1"
    OomKillDisable := true }

/-- A build descriptor with two shell commands. -/
def golangBuild : Build :=
  { Container := golangContainer, Commands := .ofList ["go build", "go test"] }

/-- A plugin descriptor with two arguments. -/
def slackPlugin : Plugin :=
  { Container := { golangContainer with Image := "plugins/slack" }
    Vargs := [("channel", .str "dev"), ("retries", .int 3)] }

/-- A filter descriptor gating on the master branch. -/
def masterFilter : Filter :=
  { Repo := "octocat/hello-world"
    Branch := .scalar "master"
    Event := .list ["push", "tag"]
    Success := "true"
    Failure := "false"
    Change := "changed"
    Matrix := [("GO_VERSION", "1.9")]
    Environment := .list ["production"] }

/-! ## Auxiliary lemmas -/

theorem lor_eq_zero_iff (x y : Nat) : x ||| y = 0 ↔ x = 0 ∧ y = 0 := by
  constructor
  · intro h
    have hbit : ∀ i, x.testBit i = false ∧ y.testBit i = false := by
      intro i
      have hi := congrArg (fun z => Nat.testBit z i) h
      simpa [Nat.testBit_or] using hi
    exact ⟨Nat.eq_of_testBit_eq (fun i => by simp [(hbit i).1]),
      Nat.eq_of_testBit_eq (fun i => by simp [(hbit i).2])⟩
  · rintro ⟨rfl, rfl⟩
    rfl

theorem nodeTypes_land_ne_zero_iff (t a : NodeType) (ht : t ∈ nodeTypes) (ha : a ∈ nodeTypes) :
    t &&& a ≠ 0 ↔ t = a := by
  simp only [nodeTypes, List.mem_cons, List.mem_singleton, List.not_mem_nil, or_false] at ht ha
  rcases ht with rfl | rfl | rfl | rfl | rfl | rfl | rfl | rfl | rfl <;>
    rcases ha with rfl | rfl | rfl | rfl | rfl | rfl | rfl | rfl | rfl <;> decide

theorem nodeTypes_oneFlag (t : NodeType) (ht : t ∈ nodeTypes) : OneFlag t := by
  simp only [nodeTypes, List.mem_cons, List.mem_singleton, List.not_mem_nil, or_false] at ht
  rcases ht with rfl | rfl | rfl | rfl | rfl | rfl | rfl | rfl | rfl
  exacts [⟨0, rfl⟩, ⟨1, rfl⟩, ⟨2, rfl⟩, ⟨3, rfl⟩, ⟨4, rfl⟩, ⟨5, rfl⟩, ⟨6, rfl⟩, ⟨7, rfl⟩, ⟨8, rfl⟩]

theorem not_oneFlag_zero : ¬ OneFlag 0 := by
  rintro ⟨k, hk⟩
  rw [Nat.one_shiftLeft] at hk
  exact absurd hk.symm (Nat.pos_iff_ne_zero.mp (Nat.two_pow_pos k))

/-! ## ListNode.append -/

/-- C1: after `l.append(n...)` the child sequence of `l` is its previous child
sequence followed by `n`, in the given order and with nothing dropped or
deduplicated; appending `[A, B]` and then `[C]` to an empty list yields
`[A, B, C]`; appending nothing leaves the list unchanged. -/
theorem append_extends_in_order (l : ListNode) (n : List Node) :
    (l.append n).Nodes = l.Nodes ++ n ∧
    (∀ A B C : Node, ((newListNode.append [A, B]).append [C]).Nodes = [A, B, C]) ∧
    (∀ (t : NodeType) (A B C : Node),
      (((ListNode.mk t []).append [A, B]).append [C]).Nodes = [A, B, C]) ∧
    (∀ A : Node, ((newListNode.append [A]).append [A]).Nodes = [A, A]) ∧
    (l.append []).Nodes = l.Nodes ∧ l.append [] = l := by
  refine ⟨rfl, fun _ _ _ => rfl, fun _ _ _ _ => rfl, fun _ => rfl, ?_, ?_⟩
  · simp [ListNode.append, ListNode.Nodes]
  · cases l
    simp [ListNode.append, ListNode.Nodes, ListNode.NodeType]

/-! ## Tags of constructed nodes -/

/-- C2: the nodes returned by `newDockerNode(typ, c)`, `newPluginNode(typ, p)` and
`newBuildNode(typ, b)` report `Type() == typ`, `newFilterNode(f)` reports
`Type() == NodeFilter`, and calling a constructor twice on identical input
yields identical nodes (identical tag and field values). -/
theorem constructors_tag_and_repeat (typ typ' : NodeType) (c c' : Container) (p p' : Plugin)
    (b b' : Build) (f f' : Filter)
    (htyp : typ = typ') (hc : c = c') (hp : p = p') (hb : b = b') (hf : f = f') :
    (newDockerNode typ c).type = typ ∧ (newPluginNode typ p).type = typ ∧
    (newBuildNode typ b).type = typ ∧ (newFilterNode f).type = NodeFilter ∧
    newDockerNode typ c = newDockerNode typ' c' ∧
    newPluginNode typ p = newPluginNode typ' p' ∧
    newBuildNode typ b = newBuildNode typ' b' ∧
    newFilterNode f = newFilterNode f' := by
  subst htyp hc hp hb hf
  exact ⟨rfl, rfl, rfl, rfl, rfl, rfl, rfl, rfl⟩

/-- Witness of C2: the constructors called on `NodeBuild` and on the sample
descriptors, the second time with the same inputs written differently. -/
theorem constructors_tag_and_repeat_witness :
    (NodeBuild = 4 ∧ golangContainer = golangBuild.Container ∧
      slackPlugin = { slackPlugin with Vargs := [("channel", .str "dev"), ("retries", .int 3)] } ∧
      golangBuild = { golangBuild with Commands := .ofList ["go build", "go test"] } ∧
      masterFilter = { masterFilter with Repo := "octocat/hello-world" }) ∧
    ((newDockerNode NodeBuild golangContainer).type = NodeBuild ∧
      (newPluginNode NodeBuild slackPlugin).type = NodeBuild ∧
      (newBuildNode NodeBuild golangBuild).type = NodeBuild ∧
      (newFilterNode masterFilter).type = NodeFilter ∧
      newDockerNode NodeBuild golangContainer = newDockerNode 4 golangBuild.Container ∧
      newPluginNode NodeBuild slackPlugin = newPluginNode 4
        { slackPlugin with Vargs := [("channel", .str "dev"), ("retries", .int 3)] } ∧
      newBuildNode NodeBuild golangBuild = newBuildNode 4
        { golangBuild with Commands := .ofList ["go build", "go test"] } ∧
      newFilterNode masterFilter = newFilterNode
        { masterFilter with Repo := "octocat/hello-world" }) :=
  ⟨⟨rfl, rfl, rfl, rfl, rfl⟩,
    constructors_tag_and_repeat NodeBuild 4 golangContainer golangBuild.Container slackPlugin
      { slackPlugin with Vargs := [("channel", .str "dev"), ("retries", .int 3)] } golangBuild
      { golangBuild with Commands := .ofList ["go build", "go test"] } masterFilter
      { masterFilter with Repo := "octocat/hello-world" } rfl rfl rfl rfl rfl⟩

/-- C3, as stated, fails: `newDockerNode`, `newPluginNode` and `newBuildNode`
store whatever tag they are given, so the tag `0` gives a node with no flag bit
set and the tag `NodeBuild | NodeCache` a node with two flag bits set. -/
theorem docker_tag_not_always_one_flag :
    ¬ OneFlag (newDockerNode 0 golangContainer).type ∧
    ¬ OneFlag (newPluginNode 0 slackPlugin).type ∧
    ¬ OneFlag (newBuildNode (NodeBuild ||| NodeCache) golangBuild).type := by
  refine ⟨not_oneFlag_zero, not_oneFlag_zero, ?_⟩
  rintro ⟨k, hk⟩
  have h12 : (newBuildNode (NodeBuild ||| NodeCache) golangBuild).type = 12 := by decide
  rw [h12, Nat.one_shiftLeft] at hk
  have hk' : (12 : Nat) = 2 ^ k := hk
  rcases Nat.lt_or_ge k 4 with h | h
  · interval_cases k <;> omega
  · have := Nat.pow_le_pow_right (by decide : 0 < 2) h
    omega

/-- C3, amended: the tags of `newListNode()` and of `newFilterNode(f)` have
exactly one flag bit set, and the tag of `newDockerNode(typ, c)`,
`newPluginNode(typ, p)` and `newBuildNode(typ, b)` has exactly one flag bit set
whenever `typ` has, as each of the nine `NodeType` constants has. -/
theorem constructed_tag_one_flag (typ : NodeType) (c : Container) (p : Plugin) (b : Build)
    (f : Filter) (htyp : OneFlag typ) :
    OneFlag newListNode.type ∧ OneFlag (newFilterNode f).type ∧
    OneFlag (newDockerNode typ c).type ∧ OneFlag (newPluginNode typ p).type ∧
    OneFlag (newBuildNode typ b).type ∧
    (∀ t ∈ nodeTypes, OneFlag (newDockerNode t c).type ∧ OneFlag (newPluginNode t p).type ∧
      OneFlag (newBuildNode t b).type) :=
  ⟨⟨0, rfl⟩, ⟨1, rfl⟩, htyp, htyp, htyp,
    fun t ht => ⟨nodeTypes_oneFlag t ht, nodeTypes_oneFlag t ht, nodeTypes_oneFlag t ht⟩⟩

/-- Witness of the amended C3 at the tag `NodeDeploy`. -/
theorem constructed_tag_one_flag_witness :
    OneFlag NodeDeploy ∧
    (OneFlag newListNode.type ∧ OneFlag (newFilterNode masterFilter).type ∧
      OneFlag (newDockerNode NodeDeploy golangContainer).type ∧
      OneFlag (newPluginNode NodeDeploy slackPlugin).type ∧
      OneFlag (newBuildNode NodeDeploy golangBuild).type ∧
      (∀ t ∈ nodeTypes, OneFlag (newDockerNode t golangContainer).type ∧
        OneFlag (newPluginNode t slackPlugin).type ∧
        OneFlag (newBuildNode t golangBuild).type)) :=
  ⟨⟨5, rfl⟩, constructed_tag_one_flag NodeDeploy golangContainer slackPlugin golangBuild
    masterFilter ⟨5, rfl⟩⟩

/-! ## Set membership by one bitwise AND -/

/-- C4: for a tag `t` among the nine `NodeType` constants and a set `S` of those
constants with `mask S` the bitwise OR of its members, `t & mask S` is non-zero
if and only if `t` is a member of `S`. -/
theorem land_mask_ne_zero_iff_mem (t : NodeType) (S : List NodeType) (ht : t ∈ nodeTypes)
    (hS : ∀ s ∈ S, s ∈ nodeTypes) : t &&& mask S ≠ 0 ↔ t ∈ S := by
  induction S with
  | nil => simp [mask]
  | cons a S ih =>
    have ha : a ∈ nodeTypes := hS a (List.mem_cons_self a S)
    have hS' : ∀ s ∈ S, s ∈ nodeTypes := fun s hs => hS s (List.mem_cons_of_mem a hs)
    have hstep : mask (a :: S) = a ||| mask S := rfl
    rw [hstep, Nat.and_or_distrib_left, Ne, lor_eq_zero_iff, not_and_or, List.mem_cons]
    exact or_congr (nodeTypes_land_ne_zero_iff t a ht ha) (ih hS')

/-- Witness of C4: `NodeNotify` is found in `{Deploy, Publish, Notify}`, whose
mask is 416, by one bitwise AND. -/
theorem land_mask_ne_zero_iff_mem_witness :
    (NodeNotify ∈ nodeTypes ∧ ∀ s ∈ [NodeDeploy, NodePublish, NodeNotify], s ∈ nodeTypes) ∧
    mask [NodeDeploy, NodePublish, NodeNotify] = 416 ∧
    (NodeNotify &&& mask [NodeDeploy, NodePublish, NodeNotify] ≠ 0 ↔
      NodeNotify ∈ [NodeDeploy, NodePublish, NodeNotify]) :=
  ⟨⟨by decide, by decide⟩, by decide,
    land_mask_ne_zero_iff_mem NodeNotify [NodeDeploy, NodePublish, NodeNotify] (by decide)
      (by decide)⟩

/-! ## Fields of constructed DockerNodes -/

/-- C5: `newPluginNode` yields a node whose `Commands` is empty, `newBuildNode`
yields a node whose `Vargs` is empty, and `newDockerNode` yields a node in which
both `Commands` and `Vargs` are empty, for every tag and every descriptor; the
empty `Commands` is the nil slice, without elements and of length 0. -/
theorem constructors_leave_payload_empty (typ : NodeType) (c : Container) (p : Plugin)
    (b : Build) :
    ((newPluginNode typ p).Commands = .nil ∧ (newPluginNode typ p).Commands.elems = [] ∧
      (newPluginNode typ p).Commands.len = 0) ∧
    (newBuildNode typ b).Vargs = [] ∧
    ((newDockerNode typ c).Commands = .nil ∧ (newDockerNode typ c).Commands.elems = [] ∧
      (newDockerNode typ c).Commands.len = 0) ∧
    (newDockerNode typ c).Vargs = [] :=
  ⟨⟨rfl, rfl, rfl⟩, rfl, ⟨rfl, rfl, rfl⟩, rfl⟩

/-- C6: the scalar fields `Image`, `Pull`, `Privileged`, `Net`, `Pid`,
`AuthConfig`, `Memory`, `CPUSetCPUs` and `OomKillDisable` of
`newDockerNode(typ, c)` equal the same-named fields of `c`. -/
theorem newDockerNode_scalar_fields (typ : NodeType) (c : Container) :
    (newDockerNode typ c).Image = c.Image ∧ (newDockerNode typ c).Pull = c.Pull ∧
    (newDockerNode typ c).Privileged = c.Privileged ∧ (newDockerNode typ c).Net = c.Net ∧
    (newDockerNode typ c).Pid = c.Pid ∧ (newDockerNode typ c).AuthConfig = c.AuthConfig ∧
    (newDockerNode typ c).Memory = c.Memory ∧
    (newDockerNode typ c).CPUSetCPUs = c.CPUSetCPUs ∧
    (newDockerNode typ c).OomKillDisable = c.OomKillDisable :=
  ⟨rfl, rfl, rfl, rfl, rfl, rfl, rfl, rfl, rfl⟩

/-- C7: `newBuildNode(typ, b)` equals `newDockerNode(typ, b.Container)` in every
field except `Commands`, and its `Commands` is `b.Commands` in the same order;
commands `["go build", "go test"]` with image `"golang:1.9"` and tag
`NodeBuild` give a node tagged `NodeBuild` with that image, those commands and
empty `Vargs`. -/
theorem newBuildNode_fields (typ : NodeType) (b : Build) (c : Container) :
    ((newBuildNode typ b).NodeType = (newDockerNode typ b.Container).NodeType ∧
      (newBuildNode typ b).Image = (newDockerNode typ b.Container).Image ∧
      (newBuildNode typ b).Pull = (newDockerNode typ b.Container).Pull ∧
      (newBuildNode typ b).Privileged = (newDockerNode typ b.Container).Privileged ∧
      (newBuildNode typ b).Environment = (newDockerNode typ b.Container).Environment ∧
      (newBuildNode typ b).Entrypoint = (newDockerNode typ b.Container).Entrypoint ∧
      (newBuildNode typ b).Command = (newDockerNode typ b.Container).Command ∧
      (newBuildNode typ b).Volumes = (newDockerNode typ b.Container).Volumes ∧
      (newBuildNode typ b).Devices = (newDockerNode typ b.Container).Devices ∧
      (newBuildNode typ b).ExtraHosts = (newDockerNode typ b.Container).ExtraHosts ∧
      (newBuildNode typ b).Net = (newDockerNode typ b.Container).Net ∧
      (newBuildNode typ b).Pid = (newDockerNode typ b.Container).Pid ∧
      (newBuildNode typ b).DNS = (newDockerNode typ b.Container).DNS ∧
      (newBuildNode typ b).AuthConfig = (newDockerNode typ b.Container).AuthConfig ∧
      (newBuildNode typ b).Memory = (newDockerNode typ b.Container).Memory ∧
      (newBuildNode typ b).CPUSetCPUs = (newDockerNode typ b.Container).CPUSetCPUs ∧
      (newBuildNode typ b).OomKillDisable = (newDockerNode typ b.Container).OomKillDisable ∧
      (newBuildNode typ b).Vargs = (newDockerNode typ b.Container).Vargs) ∧
    ((newBuildNode typ b).Commands = b.Commands ∧
      (newBuildNode typ b).Commands.elems = b.Commands.elems) ∧
    ((newBuildNode NodeBuild
        { Container := { c with Image := "golang:1.9" },
          Commands := .ofList ["go build", "go test"] }).type = NodeBuild ∧
      (newBuildNode NodeBuild
        { Container := { c with Image := "golang:1.9" },
          Commands := .ofList ["go build", "go test"] }).Image = "golang:1.9" ∧
      (newBuildNode NodeBuild
        { Container := { c with Image := "golang:1.9" },
          Commands := .ofList ["go build", "go test"] }).Commands =
        .ofList ["go build", "go test"] ∧
      (newBuildNode NodeBuild
        { Container := { c with Image := "golang:1.9" },
          Commands := .ofList ["go build", "go test"] }).Commands.elems =
        ["go build", "go test"] ∧
      (newBuildNode NodeBuild
        { Container := { c with Image := "golang:1.9" },
          Commands := .ofList ["go build", "go test"] }).Vargs = []) :=
  ⟨⟨rfl, rfl, rfl, rfl, rfl, rfl, rfl, rfl, rfl, rfl, rfl, rfl, rfl, rfl, rfl, rfl, rfl, rfl⟩,
    ⟨rfl, rfl⟩, rfl, rfl, rfl, rfl, rfl⟩

/-- C8: `newPluginNode(typ, p)` equals `newDockerNode(typ, p.Container)` in every
field except `Vargs`, and its `Vargs` is the argument mapping `p.Vargs`: the
same keys, and the same value under every key. -/
theorem newPluginNode_fields (typ : NodeType) (p : Plugin) :
    ((newPluginNode typ p).NodeType = (newDockerNode typ p.Container).NodeType ∧
      (newPluginNode typ p).Image = (newDockerNode typ p.Container).Image ∧
      (newPluginNode typ p).Pull = (newDockerNode typ p.Container).Pull ∧
      (newPluginNode typ p).Privileged = (newDockerNode typ p.Container).Privileged ∧
      (newPluginNode typ p).Environment = (newDockerNode typ p.Container).Environment ∧
      (newPluginNode typ p).Entrypoint = (newDockerNode typ p.Container).Entrypoint ∧
      (newPluginNode typ p).Command = (newDockerNode typ p.Container).Command ∧
      (newPluginNode typ p).Commands = (newDockerNode typ p.Container).Commands ∧
      (newPluginNode typ p).Volumes = (newDockerNode typ p.Container).Volumes ∧
      (newPluginNode typ p).Devices = (newDockerNode typ p.Container).Devices ∧
      (newPluginNode typ p).ExtraHosts = (newDockerNode typ p.Container).ExtraHosts ∧
      (newPluginNode typ p).Net = (newDockerNode typ p.Container).Net ∧
      (newPluginNode typ p).Pid = (newDockerNode typ p.Container).Pid ∧
      (newPluginNode typ p).DNS = (newDockerNode typ p.Container).DNS ∧
      (newPluginNode typ p).AuthConfig = (newDockerNode typ p.Container).AuthConfig ∧
      (newPluginNode typ p).Memory = (newDockerNode typ p.Container).Memory ∧
      (newPluginNode typ p).CPUSetCPUs = (newDockerNode typ p.Container).CPUSetCPUs ∧
      (newPluginNode typ p).OomKillDisable =
        (newDockerNode typ p.Container).OomKillDisable) ∧
    (newPluginNode typ p).Vargs = p.Vargs ∧
    (newPluginNode typ p).Vargs.map Prod.fst = p.Vargs.map Prod.fst ∧
    (∀ k : String, (newPluginNode typ p).Vargs.lookup k = p.Vargs.lookup k) :=
  ⟨⟨rfl, rfl, rfl, rfl, rfl, rfl, rfl, rfl, rfl, rfl, rfl, rfl, rfl, rfl, rfl, rfl, rfl, rfl⟩,
    rfl, rfl, fun _ => rfl⟩

/-- C9, as stated, fails: `newBuildNode` called with the tag `NodeDeploy` on a
build descriptor with two commands gives a node of the constructors with a
non-empty `Commands` whose tag is not `NodeBuild`. -/
theorem commands_without_build_tag :
    Constructed (newBuildNode NodeDeploy golangBuild) ∧
    (newBuildNode NodeDeploy golangBuild).Commands.elems ≠ [] ∧
    (newBuildNode NodeDeploy golangBuild).type ≠ NodeBuild ∧
    ¬ ((newBuildNode NodeDeploy golangBuild).Commands.elems ≠ [] →
      (newBuildNode NodeDeploy golangBuild).type = NodeBuild) := by
  have hc : (newBuildNode NodeDeploy golangBuild).Commands.elems ≠ [] := by
    simp [newBuildNode, golangBuild, StringSlice.elems]
  have ht : (newBuildNode NodeDeploy golangBuild).type ≠ NodeBuild := by decide
  exact ⟨Constructed.build NodeDeploy golangBuild, hc, ht, fun h => ht (h hc)⟩

/-- C9, amended: for every call of a `DockerNode` constructor, if the node it
returns has a non-empty `Commands` then the call is a call of `newBuildNode`,
on a build descriptor with commands, which the node holds, and the tag of the
node is the tag argument of that call, hence `NodeBuild` exactly when the call
passes `NodeBuild`; if the node has a non-empty `Vargs` then the call is a call
of `newPluginNode`, on a plugin descriptor with arguments, which the node
holds. -/
theorem payload_origin (call : Call) :
    (call.node.Commands.elems ≠ [] →
      ∃ (typ : NodeType) (b : Build), call = Call.build typ b ∧ b.Commands.elems ≠ [] ∧
        call.node.Commands = b.Commands ∧ call.node.type = typ ∧
        (call.node.type = NodeBuild ↔ typ = NodeBuild)) ∧
    (call.node.Vargs ≠ [] →
      ∃ (typ : NodeType) (p : Plugin), call = Call.plugin typ p ∧ p.Vargs ≠ [] ∧
        call.node.Vargs = p.Vargs ∧ call.node.type = typ) := by
  cases call with
  | docker typ c =>
    exact ⟨fun h => absurd rfl h, fun h => absurd rfl h⟩
  | plugin typ p =>
    exact ⟨fun h => absurd rfl h, fun h => ⟨typ, p, rfl, h, rfl, rfl⟩⟩
  | build typ b =>
    exact ⟨fun h => ⟨typ, b, rfl, h, rfl, rfl, Iff.rfl⟩, fun h => absurd rfl h⟩

/-- Witness of the amended C9: a build call with commands and a plugin call with
arguments, each node traced back to the call that made it. -/
theorem payload_origin_witness :
    ((Call.build NodeDeploy golangBuild).node.Commands.elems ≠ [] ∧
      ∃ (typ : NodeType) (b : Build),
        Call.build NodeDeploy golangBuild = Call.build typ b ∧ b.Commands.elems ≠ [] ∧
        (Call.build NodeDeploy golangBuild).node.Commands = b.Commands ∧
        (Call.build NodeDeploy golangBuild).node.type = typ ∧
        ((Call.build NodeDeploy golangBuild).node.type = NodeBuild ↔ typ = NodeBuild)) ∧
    ((Call.plugin NodeNotify slackPlugin).node.Vargs ≠ [] ∧
      ∃ (typ : NodeType) (p : Plugin),
        Call.plugin NodeNotify slackPlugin = Call.plugin typ p ∧ p.Vargs ≠ [] ∧
        (Call.plugin NodeNotify slackPlugin).node.Vargs = p.Vargs ∧
        (Call.plugin NodeNotify slackPlugin).node.type = typ) :=
  ⟨⟨by simp [Call.node, newBuildNode, golangBuild, StringSlice.elems],
      (payload_origin (Call.build NodeDeploy golangBuild)).1
        (by simp [Call.node, newBuildNode, golangBuild, StringSlice.elems])⟩,
    ⟨by simp [Call.node, newPluginNode, slackPlugin],
      (payload_origin (Call.plugin NodeNotify slackPlugin)).2
        (by simp [Call.node, newPluginNode, slackPlugin])⟩⟩

/-! ## Fields of constructed FilterNodes -/

/-- C10: `newFilterNode(f)` returns a node tagged `NodeFilter` whose `Repo`,
`Success`, `Failure`, `Change` and `Matrix` equal the same-named fields of `f`,
and whose `Branch`, `Event` and `Environment` are `f.Branch.Slice()`,
`f.Event.Slice()` and `f.Environment.Slice()`. -/
theorem newFilterNode_fields (f : Filter) :
    (newFilterNode f).type = NodeFilter ∧ (newFilterNode f).NodeType = NodeFilter ∧
    (newFilterNode f).Repo = f.Repo ∧ (newFilterNode f).Success = f.Success ∧
    (newFilterNode f).Failure = f.Failure ∧ (newFilterNode f).Change = f.Change ∧
    (newFilterNode f).Matrix = f.Matrix ∧ (newFilterNode f).Branch = f.Branch.Slice ∧
    (newFilterNode f).Event = f.Event.Slice ∧
    (newFilterNode f).Environment = f.Environment.Slice :=
  ⟨rfl, rfl, rfl, rfl, rfl, rfl, rfl, rfl, rfl, rfl⟩

/-- C11: the child of `newFilterNode(f)` is absent for every filter descriptor
`f`: the field `Node` is the nil interface, on which no tag can be read. -/
theorem newFilterNode_child_absent (f : Filter) :
    (newFilterNode f).Node = Node.nil ∧ (newFilterNode f).Node.type = none :=
  ⟨rfl, rfl⟩

/-! ## Normalization of flexible fields -/

/-- C12: a scalar `v` and the one-element list `[v]` normalize to the same
sequence `[v]`, so for each flexible field read by the constructors
(`Environment`, `Entrypoint`, `Command`, `DNS` of a container; `Branch`,
`Event`, `Environment` of a filter) the constructed nodes are equal in both
cases; a filter descriptor with `Branch = "master"` in scalar form yields a
`FilterNode` with `Branch == ["master"]`. -/
theorem scalar_and_singleton_normalize_alike (v : String) (typ : NodeType) (c : Container)
    (f : Filter) :
    ((Flexible.scalar v).Slice = [v] ∧ (Flexible.list [v]).Slice = [v]) ∧
    (newDockerNode typ { c with Environment := .scalar v } =
        newDockerNode typ { c with Environment := .list [v] } ∧
      newDockerNode typ { c with Entrypoint := .scalar v } =
        newDockerNode typ { c with Entrypoint := .list [v] } ∧
      newDockerNode typ { c with Command := .scalar v } =
        newDockerNode typ { c with Command := .list [v] } ∧
      newDockerNode typ { c with DNS := .scalar v } =
        newDockerNode typ { c with DNS := .list [v] }) ∧
    ((newDockerNode typ { c with Environment := .scalar v }).Environment = [v] ∧
      (newDockerNode typ { c with Entrypoint := .scalar v }).Entrypoint = [v] ∧
      (newDockerNode typ { c with Command := .scalar v }).Command = [v] ∧
      (newDockerNode typ { c with DNS := .scalar v }).DNS = [v]) ∧
    (newFilterNode { f with Branch := .scalar v } =
        newFilterNode { f with Branch := .list [v] } ∧
      newFilterNode { f with Event := .scalar v } =
        newFilterNode { f with Event := .list [v] } ∧
      newFilterNode { f with Environment := .scalar v } =
        newFilterNode { f with Environment := .list [v] }) ∧
    ((newFilterNode { f with Branch := .scalar v }).Branch = [v] ∧
      (newFilterNode { f with Event := .scalar v }).Event = [v] ∧
      (newFilterNode { f with Environment := .scalar v }).Environment = [v]) ∧
    (newFilterNode { f with Branch := .scalar "master" }).Branch = ["master"] :=
  ⟨⟨rfl, rfl⟩, ⟨rfl, rfl, rfl, rfl⟩, ⟨rfl, rfl, rfl, rfl⟩, ⟨rfl, rfl, rfl⟩, ⟨rfl, rfl, rfl⟩,
    rfl⟩

/-! ## Fresh lists and list fields -/

/-- C13: `newListNode()` returns a list whose tag is `NodeList` and whose child
sequence is empty, of length 0. -/
theorem newListNode_fresh :
    newListNode.type = NodeList ∧ newListNode.NodeType = NodeList ∧
    newListNode.Nodes = [] ∧ newListNode.Nodes.length = 0 :=
  ⟨rfl, rfl, rfl, rfl⟩

/-- C14: `newDockerNode(typ, c)` copies the list fields verbatim: `Volumes`,
`Devices` and `ExtraHosts` of the node are those of `c`, element for element in
the same order, and `Environment`, `Entrypoint`, `Command` and `DNS` of the node
are `c.Environment.Slice()`, `c.Entrypoint.Slice()`, `c.Command.Slice()` and
`c.DNS.Slice()`. -/
theorem newDockerNode_list_fields (typ : NodeType) (c : Container) :
    (newDockerNode typ c).Volumes = c.Volumes ∧ (newDockerNode typ c).Devices = c.Devices ∧
    (newDockerNode typ c).ExtraHosts = c.ExtraHosts ∧
    (newDockerNode typ c).Environment = c.Environment.Slice ∧
    (newDockerNode typ c).Entrypoint = c.Entrypoint.Slice ∧
    (newDockerNode typ c).Command = c.Command.Slice ∧
    (newDockerNode typ c).DNS = c.DNS.Slice ∧
    (∀ i : Nat, (newDockerNode typ c).Volumes[i]? = c.Volumes[i]? ∧
      (newDockerNode typ c).Devices[i]? = c.Devices[i]? ∧
      (newDockerNode typ c).ExtraHosts[i]? = c.ExtraHosts[i]?) :=
  ⟨rfl, rfl, rfl, rfl, rfl, rfl, rfl, fun _ => ⟨rfl, rfl, rfl⟩⟩

/-! ## The NodeType constants and the method Type -/

/-- C15: the nine `NodeType` constants are the powers of two `1, 2, 4, ..., 256`
in declaration order; they are pairwise distinct, the bitwise AND of any two
different constants is 0, and none of them is 0. -/
theorem nodeType_constant_values :
    (NodeList = 1 ∧ NodeFilter = 2 ∧ NodeBuild = 4 ∧ NodeCache = 8 ∧ NodeClone = 16 ∧
      NodeDeploy = 32 ∧ NodeCompose = 64 ∧ NodeNotify = 128 ∧ NodePublish = 256) ∧
    nodeTypes = (List.range 9).map (fun i => 2 ^ i) ∧
    nodeTypes.Nodup ∧
    (∀ a ∈ nodeTypes, ∃ k : Nat, a = 2 ^ k) ∧
    (∀ a ∈ nodeTypes, ∀ b ∈ nodeTypes, a ≠ b → a &&& b = 0) ∧
    (∀ a ∈ nodeTypes, a ≠ 0) := by
  refine ⟨by decide, by decide, by decide, ?_, by decide, by decide⟩
  intro a ha
  obtain ⟨k, hk⟩ := nodeTypes_oneFlag a ha
  exact ⟨k, hk.trans (Nat.one_shiftLeft k)⟩

/-- C16: `t.Type() == t` for every `NodeType` value `t`, so `Type` is idempotent,
and every `ListNode`, `DockerNode` and `FilterNode` reports through `Type()`,
also when called through the interface `Node`, the tag stored in its embedded
`NodeType` field. -/
theorem type_returns_embedded_tag (t : NodeType) (l : ListNode) (d : DockerNode)
    (f : FilterNode) :
    t.type = t ∧ t.type.type = t.type ∧
    l.type = l.NodeType ∧ d.type = d.NodeType ∧ f.type = f.NodeType ∧
    (Node.ofType t).type = some t ∧ (Node.ofList l).type = some l.NodeType ∧
    (Node.ofDocker d).type = some d.NodeType ∧ (Node.ofFilter f).type = some f.NodeType :=
  ⟨rfl, rfl, rfl, rfl, rfl, rfl, rfl, rfl, rfl⟩

/-! ## Frame and composition of ListNode.append -/

/-- C17: `l.append(n...)` changes only the child sequence: the tag of `l` is the
same after the call, the previous children remain an unchanged prefix at the
same indices, and the length grows by exactly `len(n)`. -/
theorem append_frame (l : ListNode) (n : List Node) :
    (l.append n).NodeType = l.NodeType ∧ (l.append n).type = l.type ∧
    (l.append n).Nodes.take l.Nodes.length = l.Nodes ∧
    l.Nodes <+: (l.append n).Nodes ∧
    (∀ i : Fin l.Nodes.length, (l.append n).Nodes[i.val]? = some (l.Nodes.get i)) ∧
    (l.append n).Nodes.length = l.Nodes.length + n.length := by
  have hN : (l.append n).Nodes = l.Nodes ++ n := rfl
  refine ⟨rfl, rfl, ?_, ?_, ?_, ?_⟩
  · rw [hN, List.take_left]
  · rw [hN]
    exact List.prefix_append _ _
  · intro i
    rw [hN, List.getElem?_append_left i.isLt, List.getElem?_eq_getElem i.isLt]
    rfl
  · rw [hN, List.length_append]

/-- C18: `l.append(xs...)` followed by `l.append(ys...)` leaves `l` in the same
state as the single call `l.append(xs ++ ys ...)`; consequently a list built
from `newListNode()` by any series of appends has the tag `NodeList` and holds
the concatenation of all the arguments in call order. -/
theorem append_in_pieces (l : ListNode) (xs ys : List Node) (calls : List (List Node)) :
    (l.append xs).append ys = l.append (xs ++ ys) ∧
    (calls.foldl ListNode.append l).Nodes = l.Nodes ++ calls.flatten ∧
    (calls.foldl ListNode.append newListNode).Nodes = calls.flatten ∧
    (calls.foldl ListNode.append newListNode).NodeType = NodeList := by
  have hfold : ∀ (cs : List (List Node)) (m : ListNode),
      (cs.foldl ListNode.append m).Nodes = m.Nodes ++ cs.flatten ∧
      (cs.foldl ListNode.append m).NodeType = m.NodeType := by
    intro cs
    induction cs with
    | nil => intro m; simp
    | cons a cs ih =>
      intro m
      have hm : (m.append a).Nodes = m.Nodes ++ a := rfl
      have ht : (m.append a).NodeType = m.NodeType := rfl
      rw [List.foldl_cons, (ih (m.append a)).1, (ih (m.append a)).2, hm, ht,
        List.flatten_cons, List.append_assoc]
      exact ⟨rfl, rfl⟩
  refine ⟨?_, (hfold calls l).1, ?_, (hfold calls newListNode).2⟩
  · simp [ListNode.append, ListNode.Nodes, ListNode.NodeType, List.append_assoc]
  · have h := (hfold calls newListNode).1
    rw [h]
    rfl

/-! ## The two payloads of a DockerNode -/

/-- C19, as stated, fails: a build descriptor whose command list is an
allocated slice without elements is a descriptor with an empty command list,
yet `newBuildNode` stores that slice as given while `newDockerNode` leaves the
nil slice, so the two nodes differ in `Commands`. -/
theorem empty_commands_build_differs :
    ({ Container := golangContainer, Commands := .ofList [] } : Build).Commands.elems = [] ∧
    (newBuildNode NodeBuild { Container := golangContainer, Commands := .ofList [] }).Commands ≠
      (newDockerNode NodeBuild golangContainer).Commands ∧
    newBuildNode NodeBuild { Container := golangContainer, Commands := .ofList [] } ≠
      newDockerNode NodeBuild
        ({ Container := golangContainer, Commands := .ofList [] } : Build).Container := by
  have hne : (newBuildNode NodeBuild
      { Container := golangContainer, Commands := .ofList [] }).Commands ≠
      (newDockerNode NodeBuild golangContainer).Commands := by
    intro h
    exact StringSlice.noConfusion h
  exact ⟨rfl, hne, fun h => hne (congrArg DockerNode.Commands h)⟩

/-- C19, amended: every node returned by `newDockerNode`, `newPluginNode` or
`newBuildNode` has `Commands` empty or `Vargs` empty; a build descriptor `b`
with an empty command list gives a node `newBuildNode(typ, b)` that equals
`newDockerNode(typ, b.Container)` in every field other than `Commands`, whose
`Commands` has no elements either, and that equals it outright exactly when
`b.Commands` is the nil slice. -/
theorem payloads_never_both (typ : NodeType) (c : Container) (p : Plugin) (b : Build)
    (hb : b.Commands.elems = []) :
    ((newDockerNode typ c).Commands.elems = [] ∨ (newDockerNode typ c).Vargs = []) ∧
    ((newPluginNode typ p).Commands.elems = [] ∨ (newPluginNode typ p).Vargs = []) ∧
    (∀ b' : Build,
      (newBuildNode typ b').Commands.elems = [] ∨ (newBuildNode typ b').Vargs = []) ∧
    ({ newBuildNode typ b with Commands := .nil } = newDockerNode typ b.Container ∧
      (newBuildNode typ b).Commands.elems = (newDockerNode typ b.Container).Commands.elems ∧
      (newBuildNode typ b).Commands.len = 0 ∧
      (newDockerNode typ b.Container).Commands.len = 0) ∧
    (newBuildNode typ b = newDockerNode typ b.Container ↔ b.Commands = .nil) := by
  have hc : (newBuildNode typ b).Commands = b.Commands := rfl
  refine ⟨Or.inl rfl, Or.inl rfl, fun _ => Or.inr rfl, ⟨rfl, ?_, ?_, rfl⟩, ?_⟩
  · rw [hc, hb]
    rfl
  · rw [StringSlice.len, hc, hb]
    rfl
  · constructor
    · intro h
      have h' := congrArg DockerNode.Commands h
      rw [hc] at h'
      exact h'
    · intro h
      simp [newBuildNode, newDockerNode, h]

/-- Witness of the amended C19: a build descriptor whose command list is an
allocated slice without elements. -/
theorem payloads_never_both_witness :
    ({ Container := golangContainer, Commands := .ofList [] } : Build).Commands.elems = [] ∧
    (((newDockerNode NodeClone golangContainer).Commands.elems = [] ∨
        (newDockerNode NodeClone golangContainer).Vargs = []) ∧
      ((newPluginNode NodeClone slackPlugin).Commands.elems = [] ∨
        (newPluginNode NodeClone slackPlugin).Vargs = []) ∧
      (∀ b' : Build, (newBuildNode NodeClone b').Commands.elems = [] ∨
        (newBuildNode NodeClone b').Vargs = []) ∧
      ({ newBuildNode NodeClone { Container := golangContainer, Commands := .ofList [] } with
            Commands := .nil } =
          newDockerNode NodeClone
            ({ Container := golangContainer, Commands := .ofList [] } : Build).Container ∧
        (newBuildNode NodeClone
            { Container := golangContainer, Commands := .ofList [] }).Commands.elems =
          (newDockerNode NodeClone
            ({ Container := golangContainer, Commands := .ofList [] } : Build).Container
            ).Commands.elems ∧
        (newBuildNode NodeClone
            { Container := golangContainer, Commands := .ofList [] }).Commands.len = 0 ∧
        (newDockerNode NodeClone
            ({ Container := golangContainer, Commands := .ofList [] } : Build).Container
            ).Commands.len = 0) ∧
      (newBuildNode NodeClone { Container := golangContainer, Commands := .ofList [] } =
          newDockerNode NodeClone
            ({ Container := golangContainer, Commands := .ofList [] } : Build).Container ↔
        ({ Container := golangContainer, Commands := .ofList [] } : Build).Commands = .nil)) :=
  ⟨rfl, payloads_never_both NodeClone golangContainer slackPlugin
    { Container := golangContainer, Commands := .ofList [] } rfl⟩

end DroneExec
